import Mathlib

/-!
Verification of the E.V.E. master-controller orchestration pipeline
(`backend/master_controller/task_planner.py`,
`backend/master_controller/master_controller.py`,
`backend/core/database.py`) against its natural-language specification.

The Python code is shallowly embedded: pure request/response logic becomes
Lean functions, external effects (classifier calls, HTTP worker calls,
database reads, wall-clock time) become explicit parameters or small
inductive outcome types.  Machine integers are `Nat`/`Int`, Python floats
used only for scores/rates are `ℚ`.
-/

/-! ## String helpers

Python's `pat in s` substring test, modelled on the character lists of the
two strings. -/

/-- Predicate `beginsWith p s` is true when the character list `p` starts the list `s`. -/
def beginsWith : List Char → List Char → Bool
  | [], _ => true
  | _ :: _, [] => false
  | p :: ps, c :: cs => p == c && beginsWith ps cs

/-- Predicate `containsSeq pat s` is true when `pat` occurs contiguously inside `s`. -/
def containsSeq (pat : List Char) : List Char → Bool
  | [] => beginsWith pat []
  | c :: cs => beginsWith pat (c :: cs) || containsSeq pat cs

/-- Python `pat in s` for strings (`strContains s pat` ↔ `pat` occurs in `s`). -/
def strContains (s pat : String) : Bool :=
  containsSeq pat.toList s.toList

/-- Python `str.lower()`: lowercase each character. -/
def pyLower (s : String) : String :=
  ⟨s.data.map Char.toLower⟩

/-- Drop leading whitespace characters from a character list. -/
def dropLeadWS : List Char → List Char
  | [] => []
  | c :: cs => if c.isWhitespace then dropLeadWS cs else c :: cs

/-- Python `str.strip()`: remove leading and trailing whitespace. -/
def pyStrip (s : String) : String :=
  ⟨(dropLeadWS (dropLeadWS s.data).reverse).reverse⟩

/-- Python slicing `s[:n]` on a string. -/
def pyTake (s : String) (n : Nat) : String :=
  ⟨s.data.take n⟩

/-! ## TaskPlanner (`task_planner.py`)

`plan_task` returns a dict `{"steps": [...], "is_multi_step": bool,
"reasoning": str}`; we embed it as the `Plan` structure.  The Groq
classifier call is external: it is embedded as a `ClassifierResult`
parameter (`failure` covers any exception raised inside the `try` block —
network error, malformed JSON, non-string step entries). -/

/-- The plan dict returned by `TaskPlanner.plan_task`. -/
structure Plan where
  steps : List String
  is_multi_step : Bool
  reasoning : String
deriving DecidableEq, Repr

/-- Outcome of the classifier call inside `plan_task`'s `try` block:
`failure` = any exception (HTTP error, bad JSON, non-string steps);
`parsed steps reasoning` = a decoded JSON object, where `steps = none`
models a missing `"steps"` key or a non-list value. -/
inductive ClassifierResult where
  | failure
  | parsed (steps : Option (List String)) (reasoning : Option String)

/-- Embedding of `TaskPlanner._IMAGE_PHRASES` (task_planner.py lines 104–116). -/
def imagePhrases : List String :=
  ["generate image", "generate an image", "generate a image",
   "create image", "create an image", "create a image",
   "make image", "make an image", "make a image",
   "draw a", "draw an", "draw me",
   "generate img", "create img", "make img",
   "generate pic", "create pic", "make pic",
   "generate photo", "create photo", "make photo",
   "generate picture", "create picture", "make picture",
   "image of", "picture of", "photo of",
   "render image", "render a", "visualize",
   "show me a picture", "show me an image"]

/-- Embedding of `TaskPlanner._is_image_request` (task_planner.py lines 118–121). -/
def is_image_request (message : String) : Bool :=
  imagePhrases.any (fun phrase => strContains (pyLower message) phrase)

/-- The `type_aliases` normalization table of `plan_task`
(task_planner.py lines 65–71). -/
def alias_of (s : String) : String :=
  if s = "code" ∨ s = "programming" ∨ s = "development" then "coding"
  else if s = "doc" ∨ s = "docs" ∨ s = "writing" then "documentation"
  else if s = "analyze" ∨ s = "research" ∨ s = "data" then "analysis"
  else if s = "image" ∨ s = "picture" ∨ s = "draw" ∨ s = "generate_image" then
    "image_generation"
  else s

/-- The `valid_types` set of `plan_task` (task_planner.py line 64). -/
def valid_types : List String :=
  ["coding", "documentation", "analysis", "general", "image_generation"]

/-- One iteration of the step-normalization loop of `plan_task`
(task_planner.py lines 73–78): lowercase, strip, alias, keep if valid. -/
def normalize_step (step : String) : Option String :=
  let s := alias_of (pyStrip (pyLower step))
  if s ∈ valid_types then some s else none

/-- Embedding of `TaskPlanner._default_plan` (task_planner.py lines 165–170). -/
def default_plan : Plan :=
  { steps := ["general"], is_multi_step := false,
    reasoning := "Default single-step plan" }

/-- The classifier branch of `plan_task` (task_planner.py lines 59–98):
validate the decoded JSON, normalize and filter steps, fall back to a
single `general` step when nothing valid remains. -/
def plan_from_classifier (cls : ClassifierResult) : Plan :=
  match cls with
  | .failure => default_plan
  | .parsed none _ => default_plan
  | .parsed (some steps) reasoning =>
    let valid_steps := steps.filterMap normalize_step
    let valid_steps := if valid_steps = [] then ["general"] else valid_steps
    { steps := valid_steps,
      is_multi_step := valid_steps.length > 1,
      reasoning := reasoning.getD "AI task planning" }

/-- Embedding of `TaskPlanner.plan_task` (task_planner.py lines 21–98).
`has_client` is `self.client is not None`; `cls` is the outcome of the
classifier call (only consulted when the fast path does not fire). -/
def plan_task (has_client : Bool) (message : String) (cls : ClassifierResult) :
    Plan :=
  if !has_client then
    { steps := ["general"], is_multi_step := false,
      reasoning := "No AI planner available - single step execution" }
  else if is_image_request message then
    { steps := ["image_generation"], is_multi_step := false,
      reasoning := "User wants to generate or create an image" }
  else plan_from_classifier cls

/-! ### C1 -/

/-- C1: with the planner client configured (so that a classifier exists at
all), any message containing one of the fixed image-generation phrases
makes `plan_task` return exactly the single step `image_generation` with
`is_multi_step = false`, independent of the classifier outcome `cls`
(which is quantified over all possible results, including failure). -/
theorem C1_image_fast_path (message : String) (cls : ClassifierResult)
    (h : is_image_request message = true) :
    (plan_task true message cls).steps = ["image_generation"] ∧
    (plan_task true message cls).is_multi_step = false := by
  simp [plan_task, h]

/-- C1 witness: the fast path fires on a concrete image request even when
the classifier call would fail. -/
theorem C1_image_fast_path_witness :
    (plan_task true "Generate an image of a sunset" ClassifierResult.failure).steps
      = ["image_generation"] ∧
    (plan_task true "Generate an image of a sunset" ClassifierResult.failure).is_multi_step
      = false :=
  C1_image_fast_path "Generate an image of a sunset" ClassifierResult.failure
    (by decide)

/-! ### C2 -/

/-- C2 counterexample: a classifier response with four recognized steps
produces a four-step plan — `plan_task` enforces no 3-step cap and
performs no truncation. -/
theorem C2_counterexample :
    ¬ ((plan_task true "write everything about everything"
        (ClassifierResult.parsed
          (some ["coding", "documentation", "analysis", "general"])
          none)).steps.length ≤ 3) := by
  decide

/-- C2 amended: `plan_task` applies no cap at all — for every classifier
response, the plan's steps are exactly the recognized normalized steps of
the response, in response order (the single default `general` step only
when none is recognized), so a response with `n` recognized steps yields
a plan of exactly `n` steps; excess steps beyond 3 are kept, not
truncated, and no warning path exists (the 3-step maximum is only prompt
guidance to the classifier). -/
theorem C2_no_step_cap (message : String) (l : List String)
    (r : Option String) (h : is_image_request message = false) :
    (l.filterMap normalize_step ≠ [] →
      (plan_task true message
        (ClassifierResult.parsed (some l) r)).steps
        = l.filterMap normalize_step) ∧
    (plan_task true message
      (ClassifierResult.parsed (some l) r)).steps.length
      = max (l.filterMap normalize_step).length 1 := by
  simp only [plan_task, h, Bool.not_true, Bool.false_eq_true, if_false,
    plan_from_classifier]
  constructor
  · intro hne
    simp [hne]
  · split
    · rename_i he
      simp [he]
    · rename_i hne
      have h1 : 1 ≤ (l.filterMap normalize_step).length :=
        List.length_pos.mpr hne
      simp [Nat.max_eq_left h1]

/-- C2 amended witness: a concrete five-entry classifier response (two of
them aliases) keeps all five recognized steps in order — well beyond the
claimed cap of 3. -/
theorem C2_no_step_cap_witness :
    (plan_task true "write everything about everything"
        (ClassifierResult.parsed
          (some ["coding", "docs", "analysis", "general", "code"])
          none)).steps
      = ["coding", "documentation", "analysis", "general", "coding"] ∧
    (plan_task true "write everything about everything"
        (ClassifierResult.parsed
          (some ["coding", "docs", "analysis", "general", "code"])
          none)).steps.length
      = 5 :=
  ⟨((C2_no_step_cap "write everything about everything"
        ["coding", "docs", "analysis", "general", "code"] none
        (by decide)).1 (by decide)).trans (by decide),
   ((C2_no_step_cap "write everything about everything"
        ["coding", "docs", "analysis", "general", "code"] none
        (by decide)).2).trans (by decide)⟩

/-! ## IntelligentRouter worker statistics and selection
(`master_controller.py` lines 211–270)

`self.worker_stats` is a dict mapping worker name to
`{'success': int, 'total': int}`; `.get(name, {'success': 0, 'total': 0})`
makes an absent key behave as zero counters, so we embed the dict as a
total function with that default.  Worker health states are the strings
produced by `WorkerHealthMonitor.check_worker_health`, embedded as an
abstract map from worker name to state string. -/

/-- One entry of `IntelligentRouter.worker_stats`. -/
structure WorkerStats where
  success : Nat
  total : Nat
deriving DecidableEq, Repr

/-- The empty `worker_stats` dict (every lookup defaults to zeros). -/
def initial_stats : String → WorkerStats := fun _ => ⟨0, 0⟩

/-- Embedding of `IntelligentRouter.log_result` (master_controller.py lines 257–270):
increment `total`, and `success` only on a successful outcome. -/
def log_result (stats : String → WorkerStats) (worker_name : String)
    (success : Bool) : String → WorkerStats :=
  fun n =>
    if n = worker_name then
      { success := (stats worker_name).success + (if success then 1 else 0),
        total := (stats worker_name).total + 1 }
    else stats n

/-- A sequence of `log_result` calls starting from the empty stats dict. -/
def run_log_results (events : List (String × Bool)) : String → WorkerStats :=
  events.foldl (fun st e => log_result st e.1 e.2) initial_stats

/-- The success-rate computation of `select_best_worker`
(master_controller.py lines 234–237): `success / total`, defaulting to
`0.9` when no tasks are recorded. -/
def success_rate (stats : String → WorkerStats) (name : String) : ℚ :=
  if (stats name).total > 0 then
    ((stats name).success : ℚ) / ((stats name).total : ℚ)
  else 9 / 10

/-- A worker-registry row as returned by `get_available_agents`
(`core/database.py` lines 341–381).  `heartbeat_fresh` embeds the SQL
predicate `last_heartbeat > NOW() - INTERVAL '30 seconds'`. -/
structure Agent where
  agent_name : String
  capability : String
  status : String
  cpu_usage : ℚ
  memory_usage : ℚ
  heartbeat_fresh : Bool
deriving DecidableEq, Repr

/-- The scoring step of `select_best_worker` (master_controller.py lines
239–244): `score = success_rate + min(total, 10) * 0.01`, then ×1.1 for a
`healthy` worker, ×0.9 for a `degraded` one, unchanged otherwise. -/
def worker_score (stats : String → WorkerStats) (health : String → String)
    (a : Agent) : ℚ :=
  let rate := success_rate stats a.agent_name
  let score := rate + ((min (stats a.agent_name).total 10 : Nat) : ℚ) * (1 / 100)
  if health a.agent_name = "healthy" then score * (11 / 10)
  else if health a.agent_name = "degraded" then score * (9 / 10)
  else score

/-- The health filter of `select_best_worker` (master_controller.py lines
225–227): candidates whose state is `dead` or `unhealthy` are skipped. -/
def health_excluded (health : String → String) (a : Agent) : Bool :=
  health a.agent_name == "dead" || health a.agent_name == "unhealthy"

/-- Embedding of `IntelligentRouter.select_best_worker` (master_controller.py lines
211–255): drop unhealthy/dead candidates, score the rest, return the
best-scoring one (Python `max` keeps the earliest candidate on ties),
`None` when nothing survives. -/
def select_best_worker (stats : String → WorkerStats)
    (health : String → String) (available : List Agent) : Option Agent :=
  match (available.filter (fun a => !health_excluded health a)).map
      (fun a => (a, worker_score stats health a)) with
  | [] => none
  | x :: xs =>
    some (xs.foldl (fun best y => if best.2 < y.2 then y else best) x).1

/-! ### C4 -/

/-- Python `max` over a nonempty list returns one of its elements. -/
theorem foldl_pick_mem (xs : List (Agent × ℚ)) (x : Agent × ℚ) :
    xs.foldl (fun best y => if best.2 < y.2 then y else best) x ∈ x :: xs := by
  induction xs generalizing x with
  | nil => simp
  | cons y ys ih =>
    simp only [List.foldl_cons]
    rcases List.mem_cons.mp (ih (if x.2 < y.2 then y else x)) with h | h
    · rw [h]
      split
      · exact List.mem_cons_of_mem _ (List.mem_cons_self _ _)
      · exact List.mem_cons_self _ _
    · exact List.mem_cons_of_mem _ (List.mem_cons_of_mem _ h)

/-- C4: `select_best_worker` never returns a candidate whose health state
is `unhealthy` or `dead`, and it returns `none` whenever every candidate
is excluded by the health filter (in particular on an empty list). -/
theorem C4_select_never_unhealthy :
    (∀ (stats : String → WorkerStats) (health : String → String)
        (available : List Agent) (a : Agent),
      select_best_worker stats health available = some a →
        a ∈ available ∧ health a.agent_name ≠ "unhealthy" ∧
          health a.agent_name ≠ "dead") ∧
    (∀ (stats : String → WorkerStats) (health : String → String)
        (available : List Agent),
      (∀ a ∈ available,
          health a.agent_name = "unhealthy" ∨ health a.agent_name = "dead") →
      select_best_worker stats health available = none) := by
  constructor
  · intro stats health available a hsel
    unfold select_best_worker at hsel
    cases hsc : (available.filter (fun a => !health_excluded health a)).map
        (fun a => (a, worker_score stats health a)) with
    | nil => rw [hsc] at hsel; exact absurd hsel (by simp)
    | cons x xs =>
      rw [hsc] at hsel
      simp only [Option.some.injEq] at hsel
      have hmem : (xs.foldl (fun best y => if best.2 < y.2 then y else best) x)
          ∈ x :: xs := foldl_pick_mem xs x
      rw [← hsc] at hmem
      rcases List.mem_map.mp hmem with ⟨b, hbmem, hbeq⟩
      have hb : b = a := by rw [← hsel, ← hbeq]
      subst hb
      rcases List.mem_filter.mp hbmem with ⟨hmem', hfilt⟩
      refine ⟨hmem', ?_, ?_⟩ <;>
      · intro hcontra
        simp [health_excluded, hcontra] at hfilt
  · intro stats health available hall
    unfold select_best_worker
    have hfilt : available.filter (fun a => !health_excluded health a) = [] := by
      rw [List.filter_eq_nil_iff]
      intro a ha
      rcases hall a ha with h | h <;> simp [health_excluded, h]
    rw [hfilt]
    rfl

/-- Sample registry rows used by the concrete witnesses below. -/
def agentC : Agent := ⟨"coder-1", "coding", "idle", 10, 20, true⟩

/-- A second sample registry row (a general-capability worker). -/
def agentG : Agent := ⟨"general-1", "general", "idle", 30, 40, true⟩

/-- Health table for the C3/C4 scenario: the coding worker is unhealthy,
everyone else is healthy. -/
def healthScenario : String → String :=
  fun n => if n = "coder-1" then "unhealthy" else "healthy"

/-- C4 witness: on a concrete pool the selected worker is a member and not
unhealthy/dead, and a pool whose only candidate is unhealthy yields
`none`. -/
theorem C4_select_never_unhealthy_witness :
    (agentG ∈ [agentC, agentG] ∧
      healthScenario agentG.agent_name ≠ "unhealthy" ∧
      healthScenario agentG.agent_name ≠ "dead") ∧
    select_best_worker initial_stats healthScenario [agentC] = none :=
  ⟨C4_select_never_unhealthy.1 initial_stats healthScenario [agentC, agentG]
      agentG (by decide),
   C4_select_never_unhealthy.2 initial_stats healthScenario [agentC]
      (by decide)⟩

/-! ### C5 -/

/-- The computed success rate is never negative. -/
theorem success_rate_nonneg (stats : String → WorkerStats) (name : String) :
    0 ≤ success_rate stats name := by
  unfold success_rate
  split
  · positivity
  · norm_num

/-- The pre-multiplier score `success_rate + min(total, 10) * 0.01` is
strictly positive (rate defaults to `0.9` at zero tasks; with at least one
task the task bonus is at least `0.01`). -/
theorem base_score_pos (stats : String → WorkerStats) (name : String) :
    0 < success_rate stats name
        + ((min (stats name).total 10 : Nat) : ℚ) * (1 / 100) := by
  rcases Nat.eq_zero_or_pos (stats name).total with h0 | hpos
  · unfold success_rate
    rw [h0]
    norm_num
  · have h1 : 1 ≤ min (stats name).total 10 := le_min hpos (by norm_num)
    have h1q : (1 : ℚ) ≤ ((min (stats name).total 10 : Nat) : ℚ) := by
      exact_mod_cast h1
    have hr := success_rate_nonneg stats name
    nlinarith

/-- C5: worker scoring is monotonic — with equal recorded task counts and
equal health state, a higher success rate gives an equal-or-higher score;
and the same worker scores strictly higher when `healthy` than when
`degraded`. -/
theorem C5_score_monotonic :
    (∀ (stats : String → WorkerStats) (health : String → String)
        (a b : Agent),
      (stats a.agent_name).total = (stats b.agent_name).total →
      health a.agent_name = health b.agent_name →
      success_rate stats b.agent_name ≤ success_rate stats a.agent_name →
      worker_score stats health b ≤ worker_score stats health a) ∧
    (∀ (stats : String → WorkerStats) (healthy degraded : String → String)
        (a : Agent),
      healthy a.agent_name = "healthy" →
      degraded a.agent_name = "degraded" →
      worker_score stats degraded a < worker_score stats healthy a) := by
  constructor
  · intro stats health a b htot hhealth hrate
    unfold worker_score
    rw [htot, ← hhealth]
    have hbase :
        success_rate stats b.agent_name
            + ((min (stats b.agent_name).total 10 : Nat) : ℚ) * (1 / 100)
          ≤ success_rate stats a.agent_name
            + ((min (stats b.agent_name).total 10 : Nat) : ℚ) * (1 / 100) := by
      linarith
    split
    · exact mul_le_mul_of_nonneg_right hbase (by norm_num)
    · split
      · exact mul_le_mul_of_nonneg_right hbase (by norm_num)
      · exact hbase
  · intro stats healthy degraded a hh hd
    have e1 : worker_score stats degraded a
        = (success_rate stats a.agent_name
            + ((min (stats a.agent_name).total 10 : Nat) : ℚ) * (1 / 100))
          * (9 / 10) := by
      simp [worker_score, hd]
    have e2 : worker_score stats healthy a
        = (success_rate stats a.agent_name
            + ((min (stats a.agent_name).total 10 : Nat) : ℚ) * (1 / 100))
          * (11 / 10) := by
      simp [worker_score, hh]
    have hpos := base_score_pos stats a.agent_name
    rw [e1, e2]
    nlinarith

/-- C5 witness: the two monotonicity statements applied at concrete
workers, stats and health tables. -/
theorem C5_score_monotonic_witness :
    worker_score initial_stats (fun _ => "healthy") agentG
        ≤ worker_score initial_stats (fun _ => "healthy") agentC ∧
    worker_score initial_stats (fun _ => "degraded") agentG
        < worker_score initial_stats (fun _ => "healthy") agentG :=
  ⟨C5_score_monotonic.1 initial_stats (fun _ => "healthy") agentC agentG
      rfl rfl (le_refl _),
   C5_score_monotonic.2 initial_stats (fun _ => "healthy")
      (fun _ => "degraded") agentG rfl rfl⟩

/-! ### C9 -/

/-- Helper: `log_result` preserves `success ≤ total` at every key. -/
theorem log_result_preserves_inv (stats : String → WorkerStats)
    (hinv : ∀ n, (stats n).success ≤ (stats n).total)
    (name : String) (b : Bool) :
    ∀ n, ((log_result stats name b) n).success
        ≤ ((log_result stats name b) n).total := by
  intro n
  unfold log_result
  split
  · cases b
    · simpa using Nat.le_succ_of_le (hinv name)
    · simpa using Nat.succ_le_succ (hinv name)
  · exact hinv n

/-- The invariant holds after any fold of `log_result` calls. -/
theorem run_log_results_inv_aux (events : List (String × Bool)) :
    ∀ (stats : String → WorkerStats),
      (∀ n, (stats n).success ≤ (stats n).total) →
      ∀ n, ((events.foldl (fun st e => log_result st e.1 e.2) stats) n).success
          ≤ ((events.foldl (fun st e => log_result st e.1 e.2) stats) n).total := by
  induction events with
  | nil => intro stats hinv n; exact hinv n
  | cons e es ih =>
    intro stats hinv n
    exact ih (log_result stats e.1 e.2)
      (log_result_preserves_inv stats hinv e.1 e.2) n

/-- C9: each `log_result` call adds exactly one to `total` and adds one to
`success` only on a successful outcome; after any sequence of calls from
the empty dict `success ≤ total` holds for every worker, so the success
rate used by `select_best_worker` always lies in `[0, 1]`, with the `0.9`
default at zero recorded tasks. -/
theorem C9_stats_invariant :
    (∀ (stats : String → WorkerStats) (name : String) (b : Bool),
      ((log_result stats name b) name).total = (stats name).total + 1 ∧
      ((log_result stats name b) name).success
        = (stats name).success + (if b then 1 else 0)) ∧
    (∀ (events : List (String × Bool)) (name : String),
      (run_log_results events name).success
        ≤ (run_log_results events name).total) ∧
    (∀ (stats : String → WorkerStats) (name : String),
      (stats name).success ≤ (stats name).total →
      0 ≤ success_rate stats name ∧ success_rate stats name ≤ 1) ∧
    (∀ (stats : String → WorkerStats) (name : String),
      (stats name).total = 0 → success_rate stats name = 9 / 10) := by
  refine ⟨?_, ?_, ?_, ?_⟩
  · intro stats name b
    unfold log_result
    simp
  · intro events name
    exact run_log_results_inv_aux events initial_stats (fun _ => le_refl 0) name
  · intro stats name hle
    refine ⟨success_rate_nonneg stats name, ?_⟩
    unfold success_rate
    split
    · rename_i hpos
      have hposq : (0 : ℚ) < ((stats name).total : ℚ) := by exact_mod_cast hpos
      rw [div_le_one hposq]
      exact_mod_cast hle
    · norm_num
  · intro stats name h0
    unfold success_rate
    rw [h0]
    norm_num

/-- C9 witness: after two concrete logged results the counters satisfy the
invariant and a concrete rate lies in `[0, 1]`. -/
theorem C9_stats_invariant_witness :
    ((log_result initial_stats "w" true) "w").total
        = (initial_stats "w").total + 1 ∧
    (run_log_results [("w", true), ("w", false)] "w").success
        ≤ (run_log_results [("w", true), ("w", false)] "w").total ∧
    (0 ≤ success_rate initial_stats "w" ∧ success_rate initial_stats "w" ≤ 1) ∧
    success_rate initial_stats "w" = 9 / 10 :=
  ⟨(C9_stats_invariant.1 initial_stats "w" true).1,
   C9_stats_invariant.2.1 [("w", true), ("w", false)] "w",
   C9_stats_invariant.2.2.1 initial_stats "w" (by decide),
   C9_stats_invariant.2.2.2 initial_stats "w" rfl⟩

/-! ## Registry query and single-step worker resolution

`get_available_agents` (`core/database.py` lines 341–381) is a SQL query;
we embed its WHERE clause as a filter over the registry rows and its
ORDER BY (idle before busy before other status, then ascending cpu, then
ascending memory) as a sort.  Note the WHERE clause for a specific kind:
`capability LIKE '%kind%' OR capability = 'general'` — general-capability
workers are returned for every kind. -/

/-- The CASE ranking of the SQL ORDER BY: idle = 1, busy = 2, other = 3. -/
def status_rank (s : String) : Nat :=
  if s = "idle" then 1 else if s = "busy" then 2 else 3

/-- The SQL ORDER BY comparison: status rank, then cpu, then memory. -/
abbrev agent_order (a b : Agent) : Prop :=
  status_rank a.status < status_rank b.status ∨
    (status_rank a.status = status_rank b.status ∧
      (a.cpu_usage < b.cpu_usage ∨
        (a.cpu_usage = b.cpu_usage ∧ a.memory_usage ≤ b.memory_usage)))

/-- The liveness part of the WHERE clause: heartbeat within 30 seconds and
status not `failed`. -/
def live_pred (a : Agent) : Bool :=
  a.heartbeat_fresh && !(a.status == "failed")

/-- The capability part of the WHERE clause used for a specific kind:
`capability LIKE '%task_type%' OR capability = 'general'`. -/
def capability_pred (task_type : String) (a : Agent) : Bool :=
  strContains a.capability task_type || a.capability == "general"

/-- Embedding of `get_available_agents` (core/database.py lines 341–381): for a
specific kind, live agents whose capability matches the kind or is
`general`; for `general`/`image_generation`/empty kind, all live agents;
ordered by the SQL ORDER BY key. -/
def get_available_agents (registry : List Agent) (task_type : String) :
    List Agent :=
  if task_type ≠ "" ∧ task_type ≠ "general" ∧ task_type ≠ "image_generation" then
    List.insertionSort agent_order
      (registry.filter (fun a => live_pred a && capability_pred task_type a))
  else
    List.insertionSort agent_order (registry.filter live_pred)

/-- The `fallback_map` of `execute_single_step`
(master_controller.py lines 607–614). -/
def fallback_map (worker_type : String) : List String :=
  if worker_type = "coding" then ["general", "analysis"]
  else if worker_type = "documentation" then ["general", "analysis"]
  else if worker_type = "analysis" then ["general", "documentation"]
  else if worker_type = "general" then ["analysis", "documentation", "coding"]
  else if worker_type = "image_generation" then ["coding", "analysis", "general"]
  else ["general"]

/-- The fallback loop of `execute_single_step` (master_controller.py
lines 615–621): try each fallback kind until a non-empty pool appears;
`worker_type` is updated only when one is found. -/
def walk_fallbacks (registry : List Agent) (step_type : String) :
    List String → String × List Agent
  | [] => (step_type, [])
  | ft :: rest =>
    if get_available_agents registry ft = [] then
      walk_fallbacks registry step_type rest
    else (ft, get_available_agents registry ft)

/-- Pool resolution of `execute_single_step` (master_controller.py lines
599–623): query the planned kind; only when that pool is empty, walk the
fallback chain. -/
def find_worker_pool (registry : List Agent) (step_type : String) :
    String × List Agent :=
  if get_available_agents registry step_type = [] then
    walk_fallbacks registry step_type (fallback_map step_type)
  else (step_type, get_available_agents registry step_type)

/-- Where one attempt of `execute_single_step` sends the task:
to a selected worker (tagged with the `worker_type` in effect at
selection time), or to the master's direct answer path. -/
inductive DispatchTarget where
  | worker (a : Agent) (worker_type : String)
  | master
deriving DecidableEq, Repr

/-- The dispatch decision of one attempt of `execute_single_step`
(master_controller.py lines 599–665): empty pool after fallbacks →
master; otherwise `select_best_worker`, whose `None` (all candidates
unhealthy) also falls back to the master's direct answer. -/
def single_step_dispatch (registry : List Agent)
    (stats : String → WorkerStats) (health : String → String)
    (step_type : String) : DispatchTarget :=
  if (find_worker_pool registry step_type).2 = [] then .master
  else
    match select_best_worker stats health (find_worker_pool registry step_type).2 with
    | some w => .worker w (find_worker_pool registry step_type).1
    | none => .master

/-! ### C3 -/

/-- C3 counterexample: registry holds an unhealthy coding worker and a
healthy general worker.  The dispatch does reach the general worker, but
with `worker_type` still `"coding"`: the pool for `coding` was non-empty
(the registry query includes general-capability workers), so the
fallback chain was never walked — the claim's `worker_type = "general"`
fallback-chain route does not happen. -/
theorem C3_counterexample :
    single_step_dispatch [agentC, agentG] initial_stats healthScenario "coding"
        = DispatchTarget.worker agentG "coding" ∧
    single_step_dispatch [agentC, agentG] initial_stats healthScenario "coding"
        ≠ DispatchTarget.worker agentG "general" := by
  constructor
  · decide
  · decide

/-- When every health-filter survivor equals `g` and `g` survives, the
selection returns `g`. -/
theorem select_best_worker_unique (stats : String → WorkerStats)
    (health : String → String) (available : List Agent) (g : Agent)
    (hg : g ∈ available.filter (fun a => !health_excluded health a))
    (honly : ∀ a ∈ available.filter (fun a => !health_excluded health a), a = g) :
    select_best_worker stats health available = some g := by
  unfold select_best_worker
  cases hsc : (available.filter (fun a => !health_excluded health a)).map
      (fun a => (a, worker_score stats health a)) with
  | nil =>
    exfalso
    have := List.map_eq_nil_iff.mp hsc
    rw [this] at hg
    exact absurd hg (List.not_mem_nil g)
  | cons x xs =>
    have hall : ∀ p ∈ x :: xs, p = (g, worker_score stats health g) := by
      intro p hp
      rw [← hsc] at hp
      rcases List.mem_map.mp hp with ⟨b, hb, hbe⟩
      have hbg : b = g := honly b hb
      rw [← hbe, hbg]
    have hres := foldl_pick_mem xs x
    have heq := hall _ hres
    show some (List.foldl (fun best y => if best.2 < y.2 then y else best) x xs).1
      = some g
    rw [heq]

/-- C3 amended: in any registry state where every live coding-pool
candidate is either unhealthy or the agent `g`, and `g` is a live healthy
general-capability worker, the attempt dispatches to `g` — but with the
pool of the requested kind itself (`worker_type` stays `"coding"`); the
general worker is in that pool because the registry query returns
general-capability workers for every kind, not because the fallback
chain was walked (it is only walked when the pool is empty). -/
theorem C3_amended (registry : List Agent) (stats : String → WorkerStats)
    (health : String → String) (g : Agent)
    (hmem : g ∈ registry)
    (hg_live : live_pred g = true)
    (hg_cap : g.capability = "general")
    (hg_health : health g.agent_name = "healthy")
    (hall : ∀ a ∈ registry,
      live_pred a = true → capability_pred "coding" a = true →
      health a.agent_name = "unhealthy" ∨ a = g) :
    single_step_dispatch registry stats health "coding"
      = DispatchTarget.worker g "coding" := by
  have hcap : capability_pred "coding" g = true := by
    simp [capability_pred, hg_cap]
  have hga : get_available_agents registry "coding"
      = List.insertionSort agent_order
          (registry.filter (fun a => live_pred a && capability_pred "coding" a)) := by
    simp [get_available_agents]
  have hperm : List.Perm
      (List.insertionSort agent_order
        (registry.filter (fun a => live_pred a && capability_pred "coding" a)))
      (registry.filter (fun a => live_pred a && capability_pred "coding" a)) :=
    List.perm_insertionSort _ _
  have hgin : g ∈ get_available_agents registry "coding" := by
    rw [hga]
    exact hperm.mem_iff.mpr
      (List.mem_filter.mpr ⟨hmem, by simp [hg_live, hcap]⟩)
  have hne : get_available_agents registry "coding" ≠ [] := by
    intro h
    rw [h] at hgin
    exact absurd hgin (List.not_mem_nil g)
  have hpool : find_worker_pool registry "coding"
      = ("coding", get_available_agents registry "coding") := by
    unfold find_worker_pool
    rw [if_neg hne]
  have hsub : ∀ a ∈ get_available_agents registry "coding",
      a ∈ registry.filter (fun a => live_pred a && capability_pred "coding" a) := by
    intro a ha
    rw [hga] at ha
    exact hperm.mem_iff.mp ha
  have honly : ∀ a ∈ (get_available_agents registry "coding").filter
      (fun a => !health_excluded health a), a = g := by
    intro a ha
    rcases List.mem_filter.mp ha with ⟨hin, hok⟩
    rcases List.mem_filter.mp (hsub a hin) with ⟨hreg, hpred⟩
    have hpred2 : live_pred a = true ∧ capability_pred "coding" a = true := by
      simpa using hpred
    rcases hpred2 with ⟨hlive, hcapa⟩
    rcases hall a hreg hlive hcapa with hunh | heq
    · exfalso
      simp [health_excluded, hunh] at hok
    · exact heq
  have hgfil : g ∈ (get_available_agents registry "coding").filter
      (fun a => !health_excluded health a) :=
    List.mem_filter.mpr ⟨hgin, by simp [health_excluded, hg_health]⟩
  have hsel := select_best_worker_unique stats health
    (get_available_agents registry "coding") g hgfil honly
  unfold single_step_dispatch
  rw [hpool]
  simp only [hne, if_false]
  rw [hsel]

/-- C3 amended witness: the general statement applied to the concrete
two-agent scenario. -/
theorem C3_amended_witness :
    single_step_dispatch [agentC, agentG] initial_stats healthScenario "coding"
      = DispatchTarget.worker agentG "coding" :=
  C3_amended [agentC, agentG] initial_stats healthScenario agentG
    (by decide) (by decide) rfl (by decide) (by decide)

/-! ## Retry loop of `execute_single_step`
(master_controller.py lines 591–698)

Each attempt produces an answer and a validation verdict; both come from
external calls (worker HTTP + validator), so an attempt is embedded as an
oracle `outcome : Nat → String × Validation` indexed by the attempt
number.  The loop is `for attempt in range(max_retries)` with
`max_retries = 2`, breaking when
`not validation["should_retry"] or validation["quality_score"] >= 6`. -/

/-- The validation dict fields consulted by the retry loop. -/
structure Validation where
  quality_score : Int
  should_retry : Bool
deriving DecidableEq, Repr

/-- The loop's break condition (master_controller.py line 684). -/
def accept_answer (v : Validation) : Bool :=
  !v.should_retry || decide (v.quality_score ≥ 6)

/-- Embedding of `max_retries` (master_controller.py line 591). -/
def max_retries : Nat := 2

/-- The retry loop skeleton: `i` is the current attempt index, the second
argument the remaining loop iterations.  Returns (number of attempts
performed, final answer).  When the last iteration still rejects, the
current answer is returned anyway (master_controller.py lines 684–692). -/
def retry_loop_go (outcome : Nat → String × Validation) :
    Nat → Nat → Nat × String
  | i, 0 => (i, "")
  | i, r + 1 =>
    if accept_answer (outcome i).2 then (i + 1, (outcome i).1)
    else
      match r with
      | 0 => (i + 1, (outcome i).1)
      | r' + 1 => retry_loop_go outcome (i + 1) (r' + 1)

/-- The retry loop of `execute_single_step` with its hard-coded
`max_retries = 2`. -/
def single_step_retry (outcome : Nat → String × Validation) : Nat × String :=
  retry_loop_go outcome 0 max_retries

/-! ### C6 -/

/-- C6: the retry loop performs at most 2 attempts; it stops after the
first attempt as soon as the validator does not signal retry or the
quality score reaches 6; and when the first attempt is rejected, the
second attempt's answer is returned unconditionally — even if its own
validation still rejects it. -/
theorem C6_retry_bounded (outcome : Nat → String × Validation) :
    (single_step_retry outcome).1 ≤ 2 ∧
    (accept_answer (outcome 0).2 = true →
      single_step_retry outcome = (1, (outcome 0).1)) ∧
    ((outcome 0).2.quality_score ≥ 6 →
      single_step_retry outcome = (1, (outcome 0).1)) ∧
    (accept_answer (outcome 0).2 = false →
      single_step_retry outcome = (2, (outcome 1).1)) := by
  have hstep : single_step_retry outcome
      = if accept_answer (outcome 0).2 then (1, (outcome 0).1)
        else if accept_answer (outcome 1).2 then (2, (outcome 1).1)
        else (2, (outcome 1).1) := by
    unfold single_step_retry max_retries retry_loop_go
    split
    · rfl
    · unfold retry_loop_go
      split
      · rfl
      · rfl
  refine ⟨?_, ?_, ?_, ?_⟩
  · rw [hstep]
    split
    · norm_num
    · split <;> norm_num
  · intro h
    rw [hstep, if_pos h]
  · intro h
    have hacc : accept_answer (outcome 0).2 = true := by
      unfold accept_answer
      simp [h]
    rw [hstep, if_pos hacc]
  · intro h
    rw [hstep, if_neg (by simp [h])]
    split <;> rfl

/-- C6 witness: a first attempt scoring 3 with retry requested, followed
by a second attempt that still scores 3 — two attempts happen and the
second answer is returned although its quality stays below 6. -/
theorem C6_retry_bounded_witness :
    (single_step_retry
      (fun i => (if i = 0 then "poor draft" else "second draft",
        ⟨3, true⟩))).1 ≤ 2 ∧
    single_step_retry
      (fun i => (if i = 0 then "poor draft" else "second draft",
        ⟨3, true⟩)) = (2, "second draft") := by
  refine ⟨(C6_retry_bounded _).1, ?_⟩
  have h := (C6_retry_bounded
    (fun i => (if i = 0 then "poor draft" else "second draft",
      (⟨3, true⟩ : Validation)))).2.2.2 (by decide)
  simpa using h

/-! ## WorkerExecutor.execute (master_controller.py lines 344–393)

The HTTP POST to the worker is external; its outcome is embedded as an
inductive: a response with status code and decoded JSON fields
(`result` defaulting to `""`, `success` defaulting to `True`, optional
`file`), a timeout, or any other exception.  Wall-clock duration is a
parameter.  The function always returns an
`(output, success, duration, extra_data)` tuple: every failure mode is
converted into a `success = false` tuple, never an exception. -/

/-- Outcome of `requests.post` inside `WorkerExecutor.execute`. -/
inductive WorkerHttpOutcome where
  | http (status : Nat) (result : String) (successFlag : Bool)
      (file : Option String)
  | timeout
  | exc (msg : String)
deriving DecidableEq, Repr

/-- Embedding of `WorkerExecutor.execute` (master_controller.py lines 347–393).
On a 200 response the worker's own `success` flag is overridden to
failure when the lowercased first 100 characters of its result contain
`"error"`. -/
def WorkerExecutor.execute (outcome : WorkerHttpOutcome) (timeoutS : Nat)
    (duration : ℚ) : String × Bool × ℚ × Option String :=
  match outcome with
  | .http status result successFlag file =>
    if status = 200 then
      if !successFlag || strContains (pyTake (pyLower result) 100) "error" then
        (result, false, duration, file)
      else
        (result, true, duration, file)
    else
      ("Worker error: HTTP " ++ toString status, false, duration, none)
  | .timeout =>
    ("Worker timeout after " ++ toString timeoutS ++ "s", false, duration, none)
  | .exc msg =>
    ("Worker error: " ++ pyTake msg 100, false, duration, none)

/-! ### C8 -/

/-- C8: `WorkerExecutor.execute` is total — every outcome yields a
result tuple (exceptions and timeouts are converted, never propagated) —
and the success component is `false` whenever the HTTP status is not
200, the call times out, any exception occurs, or a 200 response's
lowercased first 100 result characters contain `"error"`, even when the
worker's own success flag is `true`; likewise when the worker's flag is
`false`. -/
theorem C8_execute_total_and_failure_cases (outcome : WorkerHttpOutcome)
    (timeoutS : Nat) (duration : ℚ) :
    (∃ out succ dur extra,
      WorkerExecutor.execute outcome timeoutS duration
        = (out, succ, dur, extra)) ∧
    (∀ status result flag file,
      outcome = .http status result flag file → status ≠ 200 →
      (WorkerExecutor.execute outcome timeoutS duration).2.1 = false) ∧
    (outcome = .timeout →
      (WorkerExecutor.execute outcome timeoutS duration).2.1 = false) ∧
    (∀ msg, outcome = .exc msg →
      (WorkerExecutor.execute outcome timeoutS duration).2.1 = false) ∧
    (∀ result flag file,
      outcome = .http 200 result flag file →
      strContains (pyTake (pyLower result) 100) "error" = true →
      (WorkerExecutor.execute outcome timeoutS duration).2.1 = false) ∧
    (∀ status result file,
      outcome = .http status result false file →
      (WorkerExecutor.execute outcome timeoutS duration).2.1 = false) := by
  refine ⟨⟨_, _, _, _, rfl⟩, ?_, ?_, ?_, ?_, ?_⟩
  · intro status result flag file he hs
    subst he
    simp only [WorkerExecutor.execute]
    rw [if_neg hs]
  · intro he
    subst he
    rfl
  · intro msg he
    subst he
    rfl
  · intro result flag file he herr
    subst he
    simp [WorkerExecutor.execute, herr]
  · intro status result file he
    subst he
    simp only [WorkerExecutor.execute]
    split
    · simp
    · rfl

/-- C8 witness: a 200 response whose worker-side flag is `true` but whose
body starts with "Error:" is converted to a failure tuple. -/
theorem C8_execute_total_and_failure_cases_witness :
    (WorkerExecutor.execute
      (WorkerHttpOutcome.http 200 "Error: no api key" true none) 120 1).2.1
      = false :=
  (C8_execute_total_and_failure_cases
      (WorkerHttpOutcome.http 200 "Error: no api key" true none) 120 1).2.2.2.2.1
    "Error: no api key" true none rfl (by decide)

/-! ## Direct-answer short-circuit of `process_message`
(master_controller.py lines 519–536) -/

/-- How `process_message` routes a planned request:
multi-step execution, the master's direct answer (`router.answer_directly`,
no worker lookup / selection / dispatch / validation), or
`execute_single_step` with the planned step type.  `none` models the
`IndexError` that an empty `steps` list would raise at
`task_plan['steps'][0]` (unreachable: `plan_task` never returns one). -/
inductive RouteDecision where
  | multi_step
  | master_direct
  | single_step (step_type : String)
deriving DecidableEq, Repr

/-- The dispatch structure of `process_message` (master_controller.py
lines 519–536). -/
def process_route (plan : Plan) (message : String) : Option RouteDecision :=
  if plan.is_multi_step then some .multi_step
  else
    match plan.steps with
    | [] => none
    | step_type :: _ =>
      if step_type = "general" ∧ (pyStrip message).length < 50 then
        some .master_direct
      else some (.single_step step_type)

/-! ### C10 -/

/-- C10: a non-multi-step plan whose first step is `general`, on a message
shorter than 50 characters after stripping whitespace, is answered by the
master directly — `process_message` takes the `answer_directly` branch,
which performs no worker lookup, selection, dispatch or validation
(those happen only on the `single_step`/`multi_step` routes). -/
theorem C10_short_general_direct (plan : Plan) (message : String)
    (hmulti : plan.is_multi_step = false)
    (hsteps : plan.steps.head? = some "general")
    (hlen : (pyStrip message).length < 50) :
    process_route plan message = some RouteDecision.master_direct := by
  unfold process_route
  rw [hmulti]
  cases hs : plan.steps with
  | nil => rw [hs] at hsteps; exact absurd hsteps (by simp)
  | cons s rest =>
    rw [hs] at hsteps
    simp only [List.head?_cons, Option.some.injEq] at hsteps
    simp only [Bool.false_eq_true, if_false]
    rw [if_pos ⟨hsteps, hlen⟩]

/-- C10 witness: the single-step `general` plan on the short message
"hello there" routes to the master's direct answer. -/
theorem C10_short_general_direct_witness :
    process_route ⟨["general"], false, "greeting"⟩ "hello there"
      = some RouteDecision.master_direct :=
  C10_short_general_direct ⟨["general"], false, "greeting"⟩ "hello there"
    rfl rfl (by decide)

/-! ## Multi-step execution
(`task_planner.py` lines 172–191, `master_controller.py` lines 701–767)

`execute_multi_step` loops over the plan's steps; each
`execute_single_step` call involves external workers, so a step execution
is embedded as an oracle
`exec : step_type → step_message → accumulated_context → (response, extra)`
(`extra = none` models an empty `extra_data` dict). -/

/-- Embedding of the `error_indicators` list of `should_continue_to_next_step`
(task_planner.py lines 175–178). -/
def error_indicators : List String :=
  ["error", "failed", "cannot", "unable to",
   "sorry", "apologize", "something went wrong"]

/-- Embedding of `TaskPlanner.should_continue_to_next_step` (task_planner.py lines
172–191): halt when the lowercased first 200 characters of the step
result contain a failure indicator, otherwise continue while steps
remain. -/
def should_continue_to_next_step (current_step total_steps : Nat)
    (current_result : String) : Bool :=
  if error_indicators.any
      (fun ind => strContains (pyTake (pyLower current_result) 200) ind) then
    false
  else decide (current_step < total_steps - 1)

/-- The `"\n\n---\n\n"` separator of `execute_multi_step`
(master_controller.py line 750). -/
def step_sep : String := "\n\n---\n\n"

/-- The synthesized downstream message for steps after the first
(master_controller.py lines 732–739). -/
def synth_message (message prev_response step_type : String) : String :=
  "Continue from previous step.\n\nOriginal task: " ++ message ++
    "\n\nPrevious step result:\n" ++ pyTake prev_response 500 ++
    "...\n\nNow perform: " ++ step_type

/-- The per-step context amendment (master_controller.py line 755). -/
def step_context_note (i : Nat) (step_type resp : String) : String :=
  "\n\nStep " ++ toString (i + 1) ++ " (" ++ step_type ++ ") result:\n" ++
    pyTake resp 500

/-- The loop body of `execute_multi_step` (master_controller.py lines
724–761), with the loop state (`final_response`, `final_extra_data`,
`accumulated_context`) threaded explicitly.  Python's `if i == 0` tests
become matches on the index: the first step replaces the accumulators;
later steps receive the synthesized message, append the response behind
the separator, and keep the step's `extra_data` only when non-empty. -/
def execute_multi_go
    (exec : String → String → String → String × Option String)
    (message : String) (total : Nat) :
    List String → Nat → String → Option String → String →
      String × Option String
  | [], _, final_resp, final_extra, _ => (final_resp, final_extra)
  | st :: rest, i, final_resp, final_extra, acc_ctx =>
    let step_msg := match i with
      | 0 => message
      | _ + 1 => synth_message message final_resp st
    let resp := (exec st step_msg acc_ctx).1
    let extra := (exec st step_msg acc_ctx).2
    let final_resp2 := match i with
      | 0 => resp
      | _ + 1 => final_resp ++ step_sep ++ resp
    let final_extra2 := match i with
      | 0 => extra
      | _ + 1 => if extra.isSome then extra else final_extra
    let acc_ctx2 := acc_ctx ++ step_context_note i st resp
    if should_continue_to_next_step i total resp then
      execute_multi_go exec message total rest (i + 1) final_resp2
        final_extra2 acc_ctx2
    else (final_resp2, final_extra2)

/-- Embedding of `execute_multi_step` (master_controller.py lines 701–767). -/
def execute_multi_step
    (exec : String → String → String → String × Option String)
    (steps : List String) (message file_context : String) :
    String × Option String :=
  execute_multi_go exec message steps.length steps 0 "" none file_context

/-- The (response, extra) pairs of the steps the loop actually executes,
in execution order, threading the same loop state as `execute_multi_go`. -/
def execute_multi_trace
    (exec : String → String → String → String × Option String)
    (message : String) (total : Nat) :
    List String → Nat → String → String → List (String × Option String)
  | [], _, _, _ => []
  | st :: rest, i, final_resp, acc_ctx =>
    let step_msg := match i with
      | 0 => message
      | _ + 1 => synth_message message final_resp st
    let resp := (exec st step_msg acc_ctx).1
    let extra := (exec st step_msg acc_ctx).2
    let final_resp2 := match i with
      | 0 => resp
      | _ + 1 => final_resp ++ step_sep ++ resp
    let acc_ctx2 := acc_ctx ++ step_context_note i st resp
    (resp, extra) ::
      (if should_continue_to_next_step i total resp then
        execute_multi_trace exec message total rest (i + 1) final_resp2
          acc_ctx2
      else [])

/-- The executed steps of a multi-step run, in order. -/
def multi_step_outputs
    (exec : String → String → String → String × Option String)
    (steps : List String) (message file_context : String) :
    List (String × Option String) :=
  execute_multi_trace exec message steps.length steps 0 "" file_context

/-- Specification-side joiner: each output preceded by the separator. -/
def sep_concat : List String → String
  | [] => ""
  | x :: xs => (step_sep ++ x) ++ sep_concat xs

/-- Specification-side joiner: outputs in order, separated by `step_sep`. -/
def join_in_order : List String → String
  | [] => ""
  | x :: xs => x ++ sep_concat xs

/-- Specification-side artifact aggregation: the last non-empty extra,
starting from a default. -/
def last_artifact_from (dflt : Option String) :
    List (Option String) → Option String
  | [] => dflt
  | o :: rest => last_artifact_from (if o.isSome then o else dflt) rest

/-- The last non-empty artifact of the executed steps, if any. -/
def last_artifact (l : List (Option String)) : Option String :=
  last_artifact_from none l

/-! ### C7 -/

/-- The oracle of the C7 counterexample: the `coding` step produces an
artifact `"F"`, the `documentation` step produces none. -/
def exC7 (step_type _step_msg _ctx : String) : String × Option String :=
  if step_type = "coding" then ("first ok", some "F") else ("second ok", none)

/-- C7 counterexample: on the plan `["coding", "documentation"]` both
steps execute, the final (documentation) step produces no artifact, yet
the aggregate extra result still carries the first step's artifact
`"F"` — contradicting "only the final step's auxiliary artifact (if any)
is present in the aggregate extra result". -/
theorem C7_counterexample :
    execute_multi_step exC7 ["coding", "documentation"] "m" ""
      = ("first ok" ++ step_sep ++ "second ok", some "F") ∧
    (exC7 "documentation" "any message" "any context").2 = none := by
  constructor
  · decide
  · rfl

/-- What `execute_multi_go` computes for loop indexes ≥ 1, in terms of
the executed-step trace: the accumulated response extended by each
executed output behind a separator, and the last non-empty extra. -/
theorem multi_go_eq_trace
    (exec : String → String → String → String × Option String)
    (message : String) (total : Nat) :
    ∀ (rest : List String) (i : Nat), i ≠ 0 →
      ∀ (fr : String) (fe : Option String) (ctx : String),
      execute_multi_go exec message total rest i fr fe ctx
        = (fr ++ sep_concat
            ((execute_multi_trace exec message total rest i fr ctx).map
              Prod.fst),
           last_artifact_from fe
            ((execute_multi_trace exec message total rest i fr ctx).map
              Prod.snd)) := by
  intro rest
  induction rest with
  | nil =>
    intro i hi fr fe ctx
    simp [execute_multi_go, execute_multi_trace, sep_concat,
      last_artifact_from, String.append_empty]
  | cons st rest ih =>
    intro i hi fr fe ctx
    obtain ⟨j, rfl⟩ := Nat.exists_eq_succ_of_ne_zero hi
    simp only [execute_multi_go, execute_multi_trace]
    cases hc : should_continue_to_next_step (j + 1) total
        (exec st (synth_message message fr st) ctx).1 with
    | true =>
      rw [if_pos rfl, if_pos rfl,
        ih (j + 1 + 1) (Nat.succ_ne_zero (j + 1))]
      simp only [List.map_cons, sep_concat, last_artifact_from]
      simp [String.append_assoc]
    | false =>
      simp only [Bool.false_eq_true, if_false]
      simp only [List.map_cons, List.map_nil, sep_concat, last_artifact_from]
      simp [String.append_empty, String.append_assoc]

/-- The default of `last_artifact_from` folded with the head. -/
theorem last_artifact_cons (o : Option String) (l : List (Option String)) :
    last_artifact (o :: l) = last_artifact_from o l := by
  cases o <;> simp [last_artifact, last_artifact_from]

/-- C7 amended: the executed steps' outputs appear in the final response
concatenated in execution (= step) order, separated by `"\n\n---\n\n"`;
and the aggregate extra result is the artifact of the *last executed step
that produced one* — the final step's artifact when it has one, but an
earlier step's artifact persists when later steps produce none. -/
theorem C7_multi_step_concat
    (exec : String → String → String → String × Option String)
    (steps : List String) (message file_context : String) :
    execute_multi_step exec steps message file_context
      = (join_in_order
          ((multi_step_outputs exec steps message file_context).map Prod.fst),
         last_artifact
          ((multi_step_outputs exec steps message file_context).map
            Prod.snd)) := by
  cases steps with
  | nil => rfl
  | cons s rest =>
    unfold execute_multi_step multi_step_outputs
    simp only [execute_multi_go, execute_multi_trace]
    cases hc : should_continue_to_next_step 0 (s :: rest).length
        (exec s message file_context).1 with
    | true =>
      rw [if_pos rfl, if_pos rfl,
        multi_go_eq_trace exec message (s :: rest).length rest (0 + 1)
          (Nat.succ_ne_zero 0)]
      simp only [List.map_cons, join_in_order, last_artifact_cons]
    | false =>
      simp only [Bool.false_eq_true, if_false]
      simp only [List.map_cons, List.map_nil, join_in_order, sep_concat,
        last_artifact_cons, last_artifact_from]
      simp [String.append_empty]
